import Mathlib

/-!
Verification of the SimpleITK-Notebooks repository (two notebooks:
`64_Registration_Memory_Time_Tradeoff.ipynb` and
`20_Expand_With_Interpolators.ipynb`) against its natural-language
specification.

The notebooks are thin drivers over the SimpleITK library.  We embed the
user-written code shallowly: pure arithmetic (the resampled-size
computation, the Marschner-Lobb intensity formula) becomes Lean functions
over `ℚ`/`ℝ`; configuration of library objects becomes explicit record
updates; library calls whose internals live outside this repository are
oracles (structure fields); the notebook cell sequence becomes an explicit
event trace; fallible calls are `Except`-valued.
-/

set_option autoImplicit false

namespace SitkNotebooks

/-- The SimpleITK interpolator enum values that the two notebooks mention
(`sitk.sitkNearestNeighbor`, `sitk.sitkLinear`, `sitk.sitkBSpline`,
`sitk.sitkGaussian` and the five windowed-sinc variants). -/
inductive Interp where
  | nearestNeighbor
  | linear
  | bspline
  | gaussian
  | hammingWindowedSinc
  | blackmanWindowedSinc
  | cosineWindowedSinc
  | welchWindowedSinc
  | lanczosWindowedSinc
  deriving DecidableEq

/-- The SimpleITK pixel-id values the notebooks mention. -/
inductive PixelID where
  | sitkFloat32
  | sitkVectorFloat32
  | sitkUInt8
  deriving DecidableEq

/-- Python `int()` applied to a real quantity truncates toward zero.  We
model the notebook's floating-point quantities in exact rational
arithmetic, so truncation is floor for nonnegative arguments and ceiling
for negative ones. -/
def pythonInt (q : ℚ) : ℤ :=
  if 0 ≤ q then ⌊q⌋ else ⌈q⌉

/-- Embedding of the resampling cell's size computation
(`64_Registration_Memory_Time_Tradeoff.ipynb`):

    resampled_image_size = [
        int(spacing / new_s * size)
        for spacing, size, new_s in zip(original_spacing, original_size, new_spacing)
    ]
-/
def resampled_image_size (original_spacing : List ℚ) (original_size : List ℕ)
    (new_spacing : List ℚ) : List ℤ :=
  (original_spacing.zip (original_size.zip new_spacing)).map
    (fun x => pythonInt (x.1 / x.2.2 * (x.2.1 : ℚ)))

/-- The size computation as the specification words it: per-dimension
nearest-integer rounding of `original_spacing / new_spacing × original_size`
(compare with `resampled_image_size`, which embeds the code). -/
def resampled_image_size_specRounded (original_spacing : List ℚ) (original_size : List ℕ)
    (new_spacing : List ℚ) : List ℤ :=
  (original_spacing.zip (original_size.zip new_spacing)).map
    (fun x => round (x.1 / x.2.2 * (x.2.1 : ℚ)))

/-- Metadata of a SimpleITK image: per-dimension size, spacing, origin,
a flattened direction-cosine matrix, and the pixel type.  Pixel data is
abstracted away (the claims under verification are about geometry and
pixel type only). -/
structure SitkImage where
  size : List ℕ
  spacing : List ℚ
  origin : List ℚ
  direction : List ℚ
  pixelID : PixelID
  deriving DecidableEq

/-- `GetDimension()` of a SimpleITK image. -/
def SitkImage.GetDimension (img : SitkImage) : ℕ :=
  img.size.length

/-- Row-major flattened identity direction-cosine matrix of dimension `d`. -/
def identityDirection (d : ℕ) : List ℚ :=
  (List.range (d * d)).map (fun k => if k / d = k % d then 1 else 0)

/-- `sitk.Image(size, pixelID)`: a fresh image with unit spacing, zero
origin, and identity direction. -/
def SitkImage.new (size : List ℕ) (pid : PixelID) : SitkImage :=
  { size := size
    spacing := List.replicate size.length 1
    origin := List.replicate size.length 0
    direction := identityDirection size.length
    pixelID := pid }

/-- `image.SetSpacing(s)`. -/
def SitkImage.SetSpacing (img : SitkImage) (s : List ℚ) : SitkImage :=
  { img with spacing := s }

/-- `image.SetOrigin(o)`. -/
def SitkImage.SetOrigin (img : SitkImage) (o : List ℚ) : SitkImage :=
  { img with origin := o }

/-- `image.SetDirection(d)`. -/
def SitkImage.SetDirection (img : SitkImage) (d : List ℚ) : SitkImage :=
  { img with direction := d }

/-- The reference image the resampling cell constructs before invoking the
resample filter: a fresh image of the truncated sizes, given the new
(unit) spacing and the moving image's origin, direction, and pixel id.

    new_spacing = [1.0] * moving_image.GetDimension()
    original_size = moving_image.GetSize()
    original_spacing = moving_image.GetSpacing()
    resampled_image_size = [...]
    resampled_moving_image = sitk.Image(resampled_image_size, moving_image.GetPixelID())
    resampled_moving_image.SetSpacing(new_spacing)
    resampled_moving_image.SetOrigin(moving_image.GetOrigin())
    resampled_moving_image.SetDirection(moving_image.GetDirection())
-/
def resamplingReference (moving_image : SitkImage) : SitkImage :=
  let new_spacing := List.replicate moving_image.GetDimension (1 : ℚ)
  let original_size := moving_image.size
  let original_spacing := moving_image.spacing
  let rsize := resampled_image_size original_spacing original_size new_spacing
  let resampled_moving_image := SitkImage.new (rsize.map Int.toNat) moving_image.pixelID
  let resampled_moving_image := resampled_moving_image.SetSpacing new_spacing
  let resampled_moving_image := resampled_moving_image.SetOrigin moving_image.origin
  resampled_moving_image.SetDirection moving_image.direction

/-- The spatial transforms the resample filter can be configured with; the
notebook only ever uses the default-constructed `sitk.Transform()`
(identity). -/
inductive TransformSetting where
  | identityTransform
  deriving DecidableEq

/-- State of `sitk.ResampleImageFilter()` as configured by the notebook. -/
structure ResampleImageFilter where
  referenceImage : Option SitkImage
  interpolator : Interp
  transform : TransformSetting
  deriving DecidableEq

/-- `sitk.ResampleImageFilter()` (default interpolator is `sitkLinear`). -/
def ResampleImageFilter.new : ResampleImageFilter :=
  { referenceImage := none
    interpolator := Interp.linear
    transform := TransformSetting.identityTransform }

/-- `resample.SetReferenceImage(img)`. -/
def ResampleImageFilter.SetReferenceImage (f : ResampleImageFilter) (img : SitkImage) :
    ResampleImageFilter :=
  { f with referenceImage := some img }

/-- `resample.SetInterpolator(i)`. -/
def ResampleImageFilter.SetInterpolator (f : ResampleImageFilter) (i : Interp) :
    ResampleImageFilter :=
  { f with interpolator := i }

/-- `resample.SetTransform(t)`. -/
def ResampleImageFilter.SetTransform (f : ResampleImageFilter) (t : TransformSetting) :
    ResampleImageFilter :=
  { f with transform := t }

/-- Geometry-level semantics of `resample.Execute(input)`: the output image
takes the reference image's grid (size, spacing, origin, direction); the
output pixel type defaults to the input image's pixel type.  With no
reference image set, the input's own grid is used. -/
def ResampleImageFilter.Execute (f : ResampleImageFilter) (input : SitkImage) : SitkImage :=
  match f.referenceImage with
  | some ref =>
      { size := ref.size
        spacing := ref.spacing
        origin := ref.origin
        direction := ref.direction
        pixelID := input.pixelID }
  | none => input

/-- Embedding of the whole resampling cell: build the reference image,
configure the resample filter with it, the B-spline interpolator and the
identity transform, and execute it on the moving image. -/
def resamplingCell (moving_image : SitkImage) : SitkImage :=
  let resampled_moving_image := resamplingReference moving_image
  let resample := ResampleImageFilter.new
  let resample := resample.SetReferenceImage resampled_moving_image
  let resample := resample.SetInterpolator Interp.bspline
  let resample := resample.SetTransform TransformSetting.identityTransform
  resample.Execute moving_image

/-- The similarity metric settings `register_images` can install. -/
inductive MetricKind where
  | mattesMutualInformation (numberOfHistogramBins : ℕ)
  deriving DecidableEq

/-- The metric sampling strategies of `sitk.ImageRegistrationMethod`. -/
inductive SamplingStrategyKind where
  | noSampling
  | regular
  | random
  deriving DecidableEq

/-- The optimizer settings `register_images` can install. -/
inductive OptimizerKind where
  | gradientDescent (learningRate : ℚ) (numberOfIterations : ℕ)
  deriving DecidableEq

/-- State of a `sitk.ImageRegistrationMethod()` object, parametric in the
transform type `Tr`.  `initialTransform` records the transform passed to
`SetInitialTransform` together with its `inPlace` flag. -/
structure ImageRegistrationMethod (Tr : Type) where
  metric : Option MetricKind
  samplingStrategy : SamplingStrategyKind
  samplingPercentage : ℚ
  interpolator : Option Interp
  optimizer : Option OptimizerKind
  scalesFromPhysicalShift : Bool
  initialTransform : Option (Tr × Bool)

/-- `sitk.ImageRegistrationMethod()`: a freshly constructed object, nothing
configured yet. -/
def ImageRegistrationMethod.new (Tr : Type) : ImageRegistrationMethod Tr :=
  { metric := none
    samplingStrategy := SamplingStrategyKind.noSampling
    samplingPercentage := 1
    interpolator := none
    optimizer := none
    scalesFromPhysicalShift := false
    initialTransform := none }

/-- `registration_method.SetMetricAsMattesMutualInformation(numberOfHistogramBins=b)`. -/
def ImageRegistrationMethod.SetMetricAsMattesMutualInformation {Tr : Type}
    (rm : ImageRegistrationMethod Tr) (numberOfHistogramBins : ℕ) :
    ImageRegistrationMethod Tr :=
  { rm with metric := some (MetricKind.mattesMutualInformation numberOfHistogramBins) }

/-- `registration_method.SetMetricSamplingStrategy(s)`. -/
def ImageRegistrationMethod.SetMetricSamplingStrategy {Tr : Type}
    (rm : ImageRegistrationMethod Tr) (s : SamplingStrategyKind) :
    ImageRegistrationMethod Tr :=
  { rm with samplingStrategy := s }

/-- `registration_method.SetMetricSamplingPercentage(p)`. -/
def ImageRegistrationMethod.SetMetricSamplingPercentage {Tr : Type}
    (rm : ImageRegistrationMethod Tr) (p : ℚ) : ImageRegistrationMethod Tr :=
  { rm with samplingPercentage := p }

/-- `registration_method.SetInterpolator(i)`. -/
def ImageRegistrationMethod.SetInterpolator {Tr : Type}
    (rm : ImageRegistrationMethod Tr) (i : Interp) : ImageRegistrationMethod Tr :=
  { rm with interpolator := some i }

/-- `registration_method.SetOptimizerAsGradientDescent(learningRate=lr, numberOfIterations=n)`. -/
def ImageRegistrationMethod.SetOptimizerAsGradientDescent {Tr : Type}
    (rm : ImageRegistrationMethod Tr) (learningRate : ℚ) (numberOfIterations : ℕ) :
    ImageRegistrationMethod Tr :=
  { rm with optimizer := some (OptimizerKind.gradientDescent learningRate numberOfIterations) }

/-- `registration_method.SetOptimizerScalesFromPhysicalShift()`. -/
def ImageRegistrationMethod.SetOptimizerScalesFromPhysicalShift {Tr : Type}
    (rm : ImageRegistrationMethod Tr) : ImageRegistrationMethod Tr :=
  { rm with scalesFromPhysicalShift := true }

/-- `registration_method.SetInitialTransform(t, inPlace=b)`. -/
def ImageRegistrationMethod.SetInitialTransform {Tr : Type}
    (rm : ImageRegistrationMethod Tr) (t : Tr) (inPlace : Bool) :
    ImageRegistrationMethod Tr :=
  { rm with initialTransform := some (t, inPlace) }

/-- The configuration sequence at the start of `register_images`
(`64_Registration_Memory_Time_Tradeoff.ipynb`, setters in source order):

    registration_method = sitk.ImageRegistrationMethod()
    registration_method.SetMetricAsMattesMutualInformation(numberOfHistogramBins=50)
    registration_method.SetMetricSamplingStrategy(registration_method.REGULAR)
    registration_method.SetMetricSamplingPercentage(0.01)
    registration_method.SetInterpolator(interpolator)
    registration_method.SetOptimizerAsGradientDescent(learningRate=1.0, numberOfIterations=1000)
    registration_method.SetOptimizerScalesFromPhysicalShift()
    registration_method.SetInitialTransform(initial_transform, inPlace=False)
-/
def register_images_method {Tr : Type} (initial_transform : Tr) (interpolator : Interp) :
    ImageRegistrationMethod Tr :=
  let registration_method := ImageRegistrationMethod.new Tr
  let registration_method := registration_method.SetMetricAsMattesMutualInformation 50
  let registration_method := registration_method.SetMetricSamplingStrategy SamplingStrategyKind.regular
  let registration_method := registration_method.SetMetricSamplingPercentage (1 / 100)
  let registration_method := registration_method.SetInterpolator interpolator
  let registration_method := registration_method.SetOptimizerAsGradientDescent 1 1000
  let registration_method := registration_method.SetOptimizerScalesFromPhysicalShift
  registration_method.SetInitialTransform initial_transform false

/-- Oracle for the library side of `sitk.ImageRegistrationMethod`:
`Execute` runs the configured registration on the two images and yields the
final transform; `GetOptimizerStopConditionDescription` reads the stop
condition of the run. -/
structure RegistrationLibrary (Img Tr : Type) where
  execute : ImageRegistrationMethod Tr → Img → Img → Tr
  optimizerStopConditionDescription : ImageRegistrationMethod Tr → Img → Img → String

/-- Embedding of `register_images`: configure a single registration object
(see `register_images_method`), execute it once, and return the final
transform together with the optimizer stop-condition description. -/
def register_images {Img Tr : Type} (lib : RegistrationLibrary Img Tr)
    (fixed_image moving_image : Img) (initial_transform : Tr) (interpolator : Interp) :
    Tr × String :=
  let registration_method := register_images_method initial_transform interpolator
  let final_transform := lib.execute registration_method fixed_image moving_image
  (final_transform,
    lib.optimizerStopConditionDescription registration_method fixed_image moving_image)

/-! ### Mutation model for `SetInitialTransform(..., inPlace=False)`

SimpleITK transforms are mutable Python objects.  To reason about whether
`register_images` mutates its `initial_transform` argument we model
transforms as references (`ℕ`) into a store of parameter vectors; a
registration run reads the initial parameters from the store, optimizes
them, and — when `inPlace=True` — writes the final parameters back through
the reference, while `inPlace=False` makes the library work on a copy and
leaves the store untouched. -/

/-- `registration_method.Execute` on the store model: read the initial
transform's parameters, optimize them, and mutate the referenced transform
only when the `inPlace` flag of `SetInitialTransform` was `true`. -/
def ImageRegistrationMethod.ExecuteOnStore {P : Type}
    (rm : ImageRegistrationMethod ℕ) (optimize : P → P) (store : ℕ → P) :
    (ℕ → P) × Option P :=
  match rm.initialTransform with
  | none => (store, none)
  | some (ref, inPlace) =>
      let final := optimize (store ref)
      if inPlace then (Function.update store ref final, some final)
      else (store, some final)

/-- `register_images` on the store model: the same configuration sequence
(`register_images_method`, with `inPlace=False`) followed by one `Execute`.
The images play no role in the mutation question, and the library's
optimization is the oracle `optimize`. -/
def register_images_onStore {P : Type} (optimize : P → P) (store : ℕ → P)
    (initial_transform : ℕ) (interpolator : Interp) : (ℕ → P) × Option P :=
  (register_images_method initial_transform interpolator).ExecuteOnStore optimize store

/-! ### `Except`-valued embedding for error propagation

Python exceptions raised by library calls are modelled as `Except` errors;
the notebook code, which contains no `try`/`except`, is a plain monadic
chain, so the claim that failures surface unchanged becomes a theorem
about `Except.bind`. -/

/-- The three data files the registration notebook fetches through the
dataset cache (`fdata`). -/
inductive DataFile where
  | trainingCT
  | trainingMRT1
  | ctT1Standard
  deriving DecidableEq

/-- Oracle for the fallible library side of `register_images`:
`executeE` may raise (e.g. registration non-convergence). -/
structure RegistrationLibraryE (E Img Tr : Type) where
  executeE : ImageRegistrationMethod Tr → Img → Img → Except E Tr
  optimizerStopConditionDescription : ImageRegistrationMethod Tr → Img → Img → String

/-- `register_images` with a fallible `Execute`: the configuration is pure,
the single `Execute` call may raise, and nothing catches. -/
def register_imagesE {E Img Tr : Type} (lib : RegistrationLibraryE E Img Tr)
    (fixed_image moving_image : Img) (initial_transform : Tr) (interpolator : Interp) :
    Except E (Tr × String) := do
  let registration_method := register_images_method initial_transform interpolator
  let final_transform ← lib.executeE registration_method fixed_image moving_image
  pure (final_transform,
    lib.optimizerStopConditionDescription registration_method fixed_image moving_image)

/-- Oracle for the fallible calls of the data-loading cell: the dataset
fetch `fdata`, `sitk.ReadImage`, `ru.load_RIRE_ground_truth`,
`ru.absolute_orientation_m`, construction of the reference
`sitk.Euler3DTransform` from `(R, t)`, and
`ru.generate_random_pointset`; `TransformPoint` mapped over the points is
pure. -/
structure DataLoadingEnv (E Img V : Type) where
  fdata : DataFile → Except E String
  readImage : String → PixelID → Except E Img
  load_RIRE_ground_truth : String → Except E (V × V)
  absolute_orientation_m : V → V → Except E (V × V)
  euler3DTransformOf : V → V → Except E V
  generate_random_pointset : Img → ℕ → Except E V
  transformPoints : V → V → V

/-- Result of the data-loading cell: the two images, the two fiducial
point sets, the reference transform, and the dense reference point pairs. -/
structure LoadedData (Img V : Type) where
  fixed_image : Img
  moving_image : Img
  fixed_fiducial_points : V
  moving_fiducial_points : V
  reference_transform : V
  fixed_points : V
  moving_points : V

/-- Embedding of the data-loading cell of
`64_Registration_Memory_Time_Tradeoff.ipynb`, in source order, with every
fallible call sequenced by `Except.bind` and no handler anywhere. -/
def dataLoadingCellE {E Img V : Type} (env : DataLoadingEnv E Img V) :
    Except E (LoadedData Img V) := do
  let ctPath ← env.fdata DataFile.trainingCT
  let fixed_image ← env.readImage ctPath PixelID.sitkFloat32
  let mrPath ← env.fdata DataFile.trainingMRT1
  let moving_image ← env.readImage mrPath PixelID.sitkFloat32
  let stdPath ← env.fdata DataFile.ctT1Standard
  let fiducials ← env.load_RIRE_ground_truth stdPath
  let rt ← env.absolute_orientation_m fiducials.1 fiducials.2
  let reference_transform ← env.euler3DTransformOf rt.1 rt.2
  let fixed_points ← env.generate_random_pointset fixed_image 1000
  let moving_points := env.transformPoints reference_transform fixed_points
  pure ⟨fixed_image, moving_image, fiducials.1, fiducials.2, reference_transform,
    fixed_points, moving_points⟩

/-- Oracle for the fallible resample execution of the resampling cell. -/
structure ResampleEnv (E : Type) where
  resampleExecuteE : SitkImage → Interp → SitkImage → Except E SitkImage

/-- Embedding of the resampling cell with a fallible resample execution:
the size arithmetic and reference-image construction are pure
(`resamplingReference`), the single `Execute` call may raise, and nothing
catches. -/
def resamplingCellE {E : Type} (env : ResampleEnv E) (moving_image : SitkImage) :
    Except E SitkImage := do
  let resampled_moving_image := resamplingReference moving_image
  env.resampleExecuteE resampled_moving_image Interp.bspline moving_image

/-! ### Event trace of the registration notebook

To settle the architecture-level claims (what the demonstration does, in
what order, and with which external effects) we embed the notebook's code
cells as an explicit trace of the operations they perform, in source
order. -/

/-- The distinct `print` statements of the registration notebook's code
cells. -/
inductive PrintKind where
  | originalSizeSpacing
  | resampledSizeSpacing
  | memoryUsage
  | stopConditionDescription
  | errorStatistics
  deriving DecidableEq

/-- Labels of the two error histograms plotted by the final cell. -/
inductive ErrorsLabel where
  | originalResolution
  | higherResolution
  deriving DecidableEq

/-- The operations the registration notebook's code cells perform, in the
vocabulary of the claims.  File access goes through the fetched dataset
cache (`fdata`); `writeImageFile` is in the vocabulary so that absence of
writes is a statement about the trace, not about the type.
`registerImagesCall` and `centeredTransformInitializer` carry the
identifier of the initial-alignment transform so that "both registrations
start from the same initial alignment" is expressible on the trace. -/
inductive Event where
  | readImageViaCache (f : DataFile) (pid : PixelID)
  | loadGroundTruthViaCache (f : DataFile)
  | writeImageFile (f : DataFile)
  | computeAbsoluteOrientation
  | buildReferenceTransform
  | generateRandomPointset (n : ℕ)
  | transformFixedPoints
  | displayImages
  | resampleMovingImage (i : Interp)
  | printLine (k : PrintKind)
  | centeredTransformInitializer (transformId : ℕ)
  | registerImagesCall (transformId : ℕ) (i : Interp)
  | computeRegistrationErrors
  | plotHistogramOfErrors (label : ErrorsLabel)
  deriving DecidableEq

/-- Trace of the data-loading cell: read the fixed CT and moving MR images
(both as `sitkFloat32`, both via `fdata`), load the RIRE ground-truth
correspondences via `fdata`, compute the absolute orientation, build the
reference transform, generate 1000 random fixed points, map them through
the reference transform, and display the two images interactively. -/
def dataLoadingCellTrace : List Event :=
  [ Event.readImageViaCache DataFile.trainingCT PixelID.sitkFloat32
  , Event.readImageViaCache DataFile.trainingMRT1 PixelID.sitkFloat32
  , Event.loadGroundTruthViaCache DataFile.ctT1Standard
  , Event.computeAbsoluteOrientation
  , Event.buildReferenceTransform
  , Event.generateRandomPointset 1000
  , Event.transformFixedPoints
  , Event.displayImages ]

/-- Trace of the resampling cell: resample the moving image with the
B-spline interpolator, then print the original size and spacing, the
resampled size and spacing, and the memory ratio. -/
def resamplingCellTrace : List Event :=
  [ Event.resampleMovingImage Interp.bspline
  , Event.printLine PrintKind.originalSizeSpacing
  , Event.printLine PrintKind.resampledSizeSpacing
  , Event.printLine PrintKind.memoryUsage ]

/-- Trace of the initial-alignment cell: one
`sitk.CenteredTransformInitializer` call producing the transform both
registrations share (identifier 0). -/
def initialAlignmentCellTrace : List Event :=
  [ Event.centeredTransformInitializer 0 ]

/-- Trace of the original-resolution registration cell: one
`register_images` call with linear interpolation starting from transform 0,
then `ru.registration_errors`, then printing the stop condition and the
error statistics. -/
def originalResolutionCellTrace : List Event :=
  [ Event.registerImagesCall 0 Interp.linear
  , Event.computeRegistrationErrors
  , Event.printLine PrintKind.stopConditionDescription
  , Event.printLine PrintKind.errorStatistics ]

/-- Trace of the higher-resolution registration cell: one
`register_images` call with nearest-neighbor interpolation starting from
transform 0, then `ru.registration_errors`, then printing the stop
condition and the error statistics. -/
def higherResolutionCellTrace : List Event :=
  [ Event.registerImagesCall 0 Interp.nearestNeighbor
  , Event.computeRegistrationErrors
  , Event.printLine PrintKind.stopConditionDescription
  , Event.printLine PrintKind.errorStatistics ]

/-- Trace of the final cell: one histogram per error distribution. -/
def histogramCellTrace : List Event :=
  [ Event.plotHistogramOfErrors ErrorsLabel.originalResolution
  , Event.plotHistogramOfErrors ErrorsLabel.higherResolution ]

/-- The whole registration notebook, code cells in order. -/
def registrationNotebookTrace : List Event :=
  dataLoadingCellTrace ++ resamplingCellTrace ++ initialAlignmentCellTrace ++
    originalResolutionCellTrace ++ higherResolutionCellTrace ++ histogramCellTrace

/-- The architectural phases named by the specification's overview. -/
inductive Phase where
  | loadImage (f : DataFile)
  | loadCorrespondences
  | resample (i : Interp)
  | initialAlignment (transformId : ℕ)
  | register (transformId : ℕ) (i : Interp)
  | errorStatistics
  | plotHistogram
  deriving DecidableEq

/-- Classify a trace event into the specification's phases; bookkeeping
events (printing, interactive display, point generation) carry no phase. -/
def phaseOf : Event → Option Phase
  | Event.readImageViaCache f _ => some (Phase.loadImage f)
  | Event.loadGroundTruthViaCache _ => some Phase.loadCorrespondences
  | Event.resampleMovingImage i => some (Phase.resample i)
  | Event.centeredTransformInitializer t => some (Phase.initialAlignment t)
  | Event.registerImagesCall t i => some (Phase.register t i)
  | Event.computeRegistrationErrors => some Phase.errorStatistics
  | Event.plotHistogramOfErrors _ => some Phase.plotHistogram
  | _ => none

/-- Whether an event reads a file (all reads go through the fetched
dataset cache). -/
def Event.isFileRead : Event → Bool
  | Event.readImageViaCache _ _ => true
  | Event.loadGroundTruthViaCache _ => true
  | _ => false

/-- Whether an event writes a file. -/
def Event.isFileWrite : Event → Bool
  | Event.writeImageFile _ => true
  | _ => false

/-- The kind of a print event, if it is one. -/
def Event.printKindOf : Event → Option PrintKind
  | Event.printLine k => some k
  | _ => none

/-! ### The expand notebook's interpolator demonstration -/

/-- The interpolators passed to `sitk.Expand` on the Marschner-Lobb slice
in `20_Expand_With_Interpolators.ipynb`, in source order. -/
def expandDemonstratedInterpolators : List Interp :=
  [ Interp.nearestNeighbor
  , Interp.linear
  , Interp.bspline
  , Interp.gaussian
  , Interp.hammingWindowedSinc
  , Interp.blackmanWindowedSinc
  , Interp.cosineWindowedSinc
  , Interp.welchWindowedSinc
  , Interp.lanczosWindowedSinc ]

/-- Whether an interpolator is one of the windowed-sinc variants. -/
def isWindowedSincInterp : Interp → Bool
  | Interp.hammingWindowedSinc => true
  | Interp.blackmanWindowedSinc => true
  | Interp.cosineWindowedSinc => true
  | Interp.welchWindowedSinc => true
  | Interp.lanczosWindowedSinc => true
  | _ => false

/-- The interpolation rules the specification's glossary names:
nearest-neighbor, linear, B-spline, windowed-sinc (this definition follows
the spec's words, to be compared with `expandDemonstratedInterpolators`,
which embeds the code). -/
def specNamedInterpRule (i : Interp) : Bool :=
  i == Interp.nearestNeighbor || i == Interp.linear || i == Interp.bspline ||
    isWindowedSincInterp i

/-! ### The Marschner-Lobb test image (`20_Expand_With_Interpolators.ipynb`)

`marschner_lobb(size, alpha, f_M)` builds, via `sitk.PhysicalPointSource`
with origin `[-1]*3` and spacing `[2.0/size]*3`, the image whose pixel at
index `(i, j, k)` holds the Marschner-Lobb intensity at the physical point
`(x, y, z) = (-1 + 2/size * i, -1 + 2/size * j, -1 + 2/size * k)`.  We
state the intensity formula in exact real arithmetic. -/

/-- The Marschner-Lobb intensity at height `z` and cylindrical radius `r`:

    pr = cos(2 pi f_M * cos(pi/2 * r))
    (1.0 - sin(pi/2 * z) + alpha * (1.0 + pr)) / (2.0 * (1.0 + alpha))
-/
noncomputable def marschner_lobb_value (alpha f_M z r : ℝ) : ℝ :=
  let pr := Real.cos (2 * Real.pi * f_M * Real.cos (Real.pi / 2 * r))
  (1 - Real.sin (Real.pi / 2 * z) + alpha * (1 + pr)) / (2 * (1 + alpha))

/-- Physical coordinate of grid index `i` on the `marschner_lobb` grid:
origin `-1`, spacing `2/size`. -/
noncomputable def marschner_lobb_coord (size : ℕ) (i : ℕ) : ℝ :=
  -1 + 2 / (size : ℝ) * (i : ℝ)

/-- Pixel `(i, j, k)` of `marschner_lobb(size, alpha, f_M)`:
`imgz` is the third coordinate and `r = sqrt(imgx^2 + imgy^2)`. -/
noncomputable def marschner_lobb_pixel (size : ℕ) (alpha f_M : ℝ) (i j k : ℕ) : ℝ :=
  let x := marschner_lobb_coord size i
  let y := marschner_lobb_coord size j
  let z := marschner_lobb_coord size k
  marschner_lobb_value alpha f_M z (Real.sqrt (x ^ 2 + y ^ 2))

/-! ## Helper lemmas -/

theorem pythonInt_of_nonneg (q : ℚ) (h : 0 ≤ q) : pythonInt q = ⌊q⌋ :=
  if_pos h

theorem resampled_image_size_getD (original_spacing new_spacing : List ℚ)
    (original_size : List ℕ) (i : ℕ)
    (hi : i < (resampled_image_size original_spacing original_size new_spacing).length) :
    (resampled_image_size original_spacing original_size new_spacing).getD i 0 =
      pythonInt (original_spacing.getD i 0 / new_spacing.getD i 1 *
        (original_size.getD i 0 : ℚ)) := by
  have hlen : (resampled_image_size original_spacing original_size new_spacing).length =
      min original_spacing.length (min original_size.length new_spacing.length) := by
    simp [resampled_image_size]
  rw [hlen] at hi
  have hsp : i < original_spacing.length := lt_of_lt_of_le hi (min_le_left _ _)
  have hsz : i < original_size.length :=
    lt_of_lt_of_le hi (le_trans (min_le_right _ _) (min_le_left _ _))
  have hns : i < new_spacing.length :=
    lt_of_lt_of_le hi (le_trans (min_le_right _ _) (min_le_right _ _))
  have hres : i < (resampled_image_size original_spacing original_size new_spacing).length := by
    rw [hlen]; exact hi
  rw [List.getD_eq_getElem _ _ hres, List.getD_eq_getElem _ _ hsp,
    List.getD_eq_getElem _ _ hsz, List.getD_eq_getElem _ _ hns]
  simp [resampled_image_size, List.getElem_zip]

/-! ## Claims -/

/-- Claim C1, counterexample: the resampling cell's size computation is
Python `int()` truncation, not nearest-integer rounding.  With original
spacing 3, new spacing 2 and original size 1 the quotient is 3/2: the code
yields 1 while the nearest-integer rounding the claim states yields 2. -/
theorem C1_resampled_size_not_rounding :
    resampled_image_size [3] [1] [2] = [1] ∧
    resampled_image_size_specRounded [3] [1] [2] = [2] := by
  constructor <;> norm_num [resampled_image_size, resampled_image_size_specRounded,
    pythonInt, round_eq, Int.floor_eq_iff]

/-- Claim C1 (amended): for every dimension with nonnegative original
spacing and positive new spacing, the resampled image size computed by the
resampling cell equals the floor (truncation toward zero) of
`original spacing / new spacing × original size`. -/
theorem C1_resampled_size_is_truncation (original_spacing new_spacing : List ℚ)
    (original_size : List ℕ) (i : ℕ)
    (hi : i < (resampled_image_size original_spacing original_size new_spacing).length)
    (hsp : 0 ≤ original_spacing.getD i 0)
    (hns : 0 < new_spacing.getD i 1) :
    (resampled_image_size original_spacing original_size new_spacing).getD i 0 =
      ⌊original_spacing.getD i 0 / new_spacing.getD i 1 * (original_size.getD i 0 : ℚ)⌋ := by
  rw [resampled_image_size_getD _ _ _ _ hi]
  exact pythonInt_of_nonneg _
    (mul_nonneg (div_nonneg hsp hns.le) (Nat.cast_nonneg _))

/-- Witness for `C1_resampled_size_is_truncation` at original spacing 5/2,
original size 4, new spacing 1, dimension 0. -/
theorem C1_resampled_size_is_truncation_witness :
    0 < (resampled_image_size [5 / 2] [4] [1]).length ∧
    (0 : ℚ) ≤ ([(5 : ℚ) / 2].getD 0 0) ∧
    (0 : ℚ) < ([(1 : ℚ)].getD 0 1) ∧
    (resampled_image_size [5 / 2] [4] [1]).getD 0 0 =
      ⌊([(5 : ℚ) / 2].getD 0 0) / ([(1 : ℚ)].getD 0 1) * (([4].getD 0 0 : ℕ) : ℚ)⌋ :=
  ⟨by norm_num [resampled_image_size], by norm_num, by norm_num,
    C1_resampled_size_is_truncation [5 / 2] [1] [4] 0
      (by norm_num [resampled_image_size]) (by norm_num) (by norm_num)⟩

/-- Claim C9: because the size computation truncates, for every dimension
with positive original spacing, positive original size, and positive new
spacing, the resampled physical extent never exceeds the original extent:
`resampled_size × new_spacing ≤ original_spacing × original_size`. -/
theorem C9_resampled_extent_le_original (original_spacing new_spacing : List ℚ)
    (original_size : List ℕ) (i : ℕ)
    (hi : i < (resampled_image_size original_spacing original_size new_spacing).length)
    (hsp : 0 < original_spacing.getD i 0)
    (hsz : 0 < original_size.getD i 0)
    (hns : 0 < new_spacing.getD i 1) :
    ((resampled_image_size original_spacing original_size new_spacing).getD i 0 : ℚ) *
        new_spacing.getD i 1 ≤
      original_spacing.getD i 0 * (original_size.getD i 0 : ℚ) := by
  set sp := original_spacing.getD i 0 with hsp_def
  set ns := new_spacing.getD i 1 with hns_def
  set sz := (original_size.getD i 0 : ℚ) with hsz_def
  have hq : (0 : ℚ) ≤ sp / ns * sz :=
    mul_nonneg (div_nonneg hsp.le hns.le) (by positivity)
  rw [resampled_image_size_getD _ _ _ _ hi, pythonInt_of_nonneg _ hq]
  have hfloor : ((⌊sp / ns * sz⌋ : ℤ) : ℚ) ≤ sp / ns * sz := Int.floor_le _
  have hmul : ((⌊sp / ns * sz⌋ : ℤ) : ℚ) * ns ≤ sp / ns * sz * ns :=
    mul_le_mul_of_nonneg_right hfloor hns.le
  have hcancel : sp / ns * sz * ns = sp * sz := by
    field_simp
  rw [hcancel] at hmul
  exact hmul

/-- Witness for `C9_resampled_extent_le_original` at original spacing 5/2,
original size 4, new spacing 1, dimension 0. -/
theorem C9_resampled_extent_le_original_witness :
    0 < (resampled_image_size [5 / 2] [4] [1]).length ∧
    (0 : ℚ) < ([(5 : ℚ) / 2].getD 0 0) ∧
    0 < ([4].getD 0 0 : ℕ) ∧
    (0 : ℚ) < ([(1 : ℚ)].getD 0 1) ∧
    ((resampled_image_size [5 / 2] [4] [1]).getD 0 0 : ℚ) * ([(1 : ℚ)].getD 0 1) ≤
      ([(5 : ℚ) / 2].getD 0 0) * (([4].getD 0 0 : ℕ) : ℚ) :=
  ⟨by norm_num [resampled_image_size], by norm_num, by norm_num, by norm_num,
    C9_resampled_extent_le_original [5 / 2] [1] [4] 0
      (by norm_num [resampled_image_size]) (by norm_num) (by norm_num) (by norm_num)⟩

/-- Claim C2: for every fixed image, moving image, initial transform and
interpolator, `register_images` configures a single registration object —
Mattes mutual information with 50 histogram bins, the REGULAR sampling
strategy at 1%, the caller-supplied interpolator, the gradient-descent
optimizer (learning rate 1, 1000 iterations) with scales from physical
shift, and the initial transform (not in place) — executes it once, and
returns the pair of final transform and optimizer stop-condition
description. -/
theorem C2_register_images_configures_and_executes_once {Img Tr : Type}
    (lib : RegistrationLibrary Img Tr) (fixed_image moving_image : Img)
    (initial_transform : Tr) (interpolator : Interp) :
    (register_images_method initial_transform interpolator).metric =
      some (MetricKind.mattesMutualInformation 50) ∧
    (register_images_method initial_transform interpolator).samplingStrategy =
      SamplingStrategyKind.regular ∧
    (register_images_method initial_transform interpolator).samplingPercentage = 1 / 100 ∧
    (register_images_method initial_transform interpolator).interpolator =
      some interpolator ∧
    (register_images_method initial_transform interpolator).optimizer =
      some (OptimizerKind.gradientDescent 1 1000) ∧
    (register_images_method initial_transform interpolator).scalesFromPhysicalShift = true ∧
    (register_images_method initial_transform interpolator).initialTransform =
      some (initial_transform, false) ∧
    register_images lib fixed_image moving_image initial_transform interpolator =
      (lib.execute (register_images_method initial_transform interpolator)
          fixed_image moving_image,
        lib.optimizerStopConditionDescription
          (register_images_method initial_transform interpolator)
          fixed_image moving_image) :=
  ⟨rfl, rfl, rfl, rfl, rfl, rfl, rfl, rfl⟩

/-- Claim C8: `register_images` installs the initial transform with
`inPlace=False`, so on the store model a registration run returns the
store unchanged — the `initial_transform` argument is not mutated — and
two successive registrations through the same transform reference both
start from the identical initial parameters. -/
theorem C8_register_images_leaves_initial_transform_unchanged {P : Type}
    (optimize₁ optimize₂ : P → P) (store : ℕ → P) (initial_transform : ℕ)
    (i₁ i₂ : Interp) :
    (register_images_method initial_transform i₁ :
        ImageRegistrationMethod ℕ).initialTransform = some (initial_transform, false) ∧
    register_images_onStore optimize₁ store initial_transform i₁ =
      (store, some (optimize₁ (store initial_transform))) ∧
    (register_images_onStore optimize₂
        (register_images_onStore optimize₁ store initial_transform i₁).1
        initial_transform i₂).2 =
      some (optimize₂ (store initial_transform)) :=
  ⟨rfl, rfl, rfl⟩

/-- Claim C3: the registration demonstration performs, in order: load the
two volumetric images and the sparse fiducial correspondences, resample
the moving image to a finer isotropic grid, build one initial alignment
(transform 0), run one registration call with linear interpolation from
transform 0 followed by error statistics via the helper, run one
registration call with nearest-neighbor interpolation from the same
transform 0 followed by error statistics via the helper, and plot the two
error histograms. -/
theorem C3_registration_demo_order :
    registrationNotebookTrace.filterMap phaseOf =
      [ Phase.loadImage DataFile.trainingCT
      , Phase.loadImage DataFile.trainingMRT1
      , Phase.loadCorrespondences
      , Phase.resample Interp.bspline
      , Phase.initialAlignment 0
      , Phase.register 0 Interp.linear
      , Phase.errorStatistics
      , Phase.register 0 Interp.nearestNeighbor
      , Phase.errorStatistics
      , Phase.plotHistogram
      , Phase.plotHistogram ] := by
  rfl

/-- Claim C6, counterexample: the expand notebook also demonstrates the
Gaussian interpolator on the Marschner-Lobb slice, and Gaussian is none of
the interpolation rules the specification names (nearest-neighbor, linear,
B-spline, windowed-sinc). -/
theorem C6_expand_demo_uses_gaussian :
    Interp.gaussian ∈ expandDemonstratedInterpolators ∧
    specNamedInterpRule Interp.gaussian = false := by
  constructor
  · simp [expandDemonstratedInterpolators]
  · rfl

/-- Claim C6 (amended): every interpolator demonstrated on the
Marschner-Lobb slice by the expand notebook is nearest-neighbor, linear,
B-spline, a windowed-sinc variant, or Gaussian. -/
theorem C6_expand_demo_interpolators :
    expandDemonstratedInterpolators.all
      (fun i => specNamedInterpRule i || i == Interp.gaussian) = true := by
  rfl

/-- Claim C7, counterexample: the resampling cell prints the memory ratio
(and the original and resampled sizes and spacings), so the registration
demonstration's console output is not limited to formatted error
statistics and optimizer stop conditions. -/
theorem C7_registration_demo_prints_more :
    Event.printLine PrintKind.memoryUsage ∈ registrationNotebookTrace ∧
    PrintKind.memoryUsage ≠ PrintKind.errorStatistics ∧
    PrintKind.memoryUsage ≠ PrintKind.stopConditionDescription := by
  refine ⟨?_, by simp, by simp⟩
  simp [registrationNotebookTrace, dataLoadingCellTrace, resamplingCellTrace,
    initialAlignmentCellTrace, originalResolutionCellTrace,
    higherResolutionCellTrace, histogramCellTrace]

/-- Claim C7 (amended): the registration demonstration's file accesses are
exactly the reads of the fixed CT image, the moving MR image, and the
ground-truth correspondence file, all through the fetched dataset cache;
it writes no file; and everything it prints is one of: error statistics,
optimizer stop-condition descriptions, and the resampling cell's
size/spacing and memory-ratio report. -/
theorem C7_registration_demo_external_interfaces :
    registrationNotebookTrace.filter Event.isFileRead =
      [ Event.readImageViaCache DataFile.trainingCT PixelID.sitkFloat32
      , Event.readImageViaCache DataFile.trainingMRT1 PixelID.sitkFloat32
      , Event.loadGroundTruthViaCache DataFile.ctT1Standard ] ∧
    registrationNotebookTrace.filter Event.isFileWrite = [] ∧
    (registrationNotebookTrace.filterMap Event.printKindOf).all
      (fun k => k == PrintKind.errorStatistics ||
        k == PrintKind.stopConditionDescription ||
        k == PrintKind.originalSizeSpacing ||
        k == PrintKind.resampledSizeSpacing ||
        k == PrintKind.memoryUsage) = true := by
  exact ⟨rfl, rfl, rfl⟩

/-- Claim C4: the resampled moving image produced by the resampling cell
has spacing exactly 1 in every dimension (the full spacing list is
`[1.0] * dimension`, hence isotropic); assuming every original spacing
exceeds 1, the new grid is strictly finer in every dimension; and the
moving image's origin, direction, and pixel type are carried over
unchanged. -/
theorem C4_resamplingCell_frame (moving_image : SitkImage)
    (h : ∀ s ∈ moving_image.spacing, (1 : ℚ) < s) :
    (resamplingCell moving_image).spacing =
      List.replicate moving_image.GetDimension 1 ∧
    (∀ t ∈ (resamplingCell moving_image).spacing, t = 1) ∧
    (∀ s ∈ moving_image.spacing, ∀ t ∈ (resamplingCell moving_image).spacing, t < s) ∧
    (resamplingCell moving_image).origin = moving_image.origin ∧
    (resamplingCell moving_image).direction = moving_image.direction ∧
    (resamplingCell moving_image).pixelID = moving_image.pixelID := by
  have hspacing : (resamplingCell moving_image).spacing =
      List.replicate moving_image.GetDimension 1 := rfl
  refine ⟨hspacing, ?_, ?_, rfl, rfl, rfl⟩
  · intro t ht
    rw [hspacing] at ht
    exact List.eq_of_mem_replicate ht
  · intro s hs t ht
    rw [hspacing] at ht
    rw [List.eq_of_mem_replicate ht]
    exact h s hs

/-- A concrete 4×4×4 moving image with anisotropic spacings all above 1,
used to witness the resampling-cell frame claim. -/
def sampleMovingImage : SitkImage :=
  { size := [4, 4, 4]
    spacing := [2, 3, 2]
    origin := [5, 6, 7]
    direction := identityDirection 3
    pixelID := PixelID.sitkFloat32 }

/-- Witness for `C4_resamplingCell_frame` on `sampleMovingImage`. -/
theorem C4_resamplingCell_frame_witness :
    (∀ s ∈ sampleMovingImage.spacing, (1 : ℚ) < s) ∧
    ((resamplingCell sampleMovingImage).spacing =
        List.replicate sampleMovingImage.GetDimension 1 ∧
      (∀ t ∈ (resamplingCell sampleMovingImage).spacing, t = 1) ∧
      (∀ s ∈ sampleMovingImage.spacing,
        ∀ t ∈ (resamplingCell sampleMovingImage).spacing, t < s) ∧
      (resamplingCell sampleMovingImage).origin = sampleMovingImage.origin ∧
      (resamplingCell sampleMovingImage).direction = sampleMovingImage.direction ∧
      (resamplingCell sampleMovingImage).pixelID = sampleMovingImage.pixelID) :=
  ⟨by norm_num [sampleMovingImage],
    C4_resamplingCell_frame sampleMovingImage (by norm_num [sampleMovingImage])⟩

/-- Claim C5: failures raised by wrapped-library or data-fetch calls
propagate unchanged through the notebook code: a failing dataset fetch or
a failing ground-truth load surfaces as the data-loading cell's own
result, a failing registration `Execute` (e.g. non-convergence) surfaces
as `register_images`' result, and a failing resample `Execute` surfaces as
the resampling cell's result — in each case the very error raised, with no
catch, retry, translation, or recovery. -/
theorem C5_notebook_failures_propagate {E Img V Tr : Type}
    (env : DataLoadingEnv E Img V) (e₁ : E)
    (h₁ : env.fdata DataFile.trainingCT = Except.error e₁)
    (env₂ : DataLoadingEnv E Img V) (p₁ p₂ p₃ : String) (img₁ img₂ : Img) (e₂ : E)
    (h₂ : env₂.fdata DataFile.trainingCT = Except.ok p₁)
    (h₃ : env₂.readImage p₁ PixelID.sitkFloat32 = Except.ok img₁)
    (h₄ : env₂.fdata DataFile.trainingMRT1 = Except.ok p₂)
    (h₅ : env₂.readImage p₂ PixelID.sitkFloat32 = Except.ok img₂)
    (h₆ : env₂.fdata DataFile.ctT1Standard = Except.ok p₃)
    (h₇ : env₂.load_RIRE_ground_truth p₃ = Except.error e₂)
    (lib : RegistrationLibraryE E Img Tr) (fixed_image moving_image : Img)
    (initial_transform : Tr) (interpolator : Interp) (e₃ : E)
    (h₈ : lib.executeE (register_images_method initial_transform interpolator)
        fixed_image moving_image = Except.error e₃)
    (renv : ResampleEnv E) (mov : SitkImage) (e₄ : E)
    (h₉ : renv.resampleExecuteE (resamplingReference mov) Interp.bspline mov =
        Except.error e₄) :
    dataLoadingCellE env = Except.error e₁ ∧
    dataLoadingCellE env₂ = Except.error e₂ ∧
    register_imagesE lib fixed_image moving_image initial_transform interpolator =
      Except.error e₃ ∧
    resamplingCellE renv mov = Except.error e₄ := by
  refine ⟨?_, ?_, ?_, ?_⟩
  · simp [dataLoadingCellE, h₁, Bind.bind, Except.bind]
  · simp [dataLoadingCellE, h₂, h₃, h₄, h₅, h₆, h₇, Bind.bind, Except.bind]
  · simp [register_imagesE, h₈, Bind.bind, Except.bind]
  · simp [resamplingCellE, h₉, Bind.bind, Except.bind]

/-- A data-loading environment whose dataset fetch always fails with
error 3 (a missing input file, say). -/
def failingFetchEnv : DataLoadingEnv ℕ Unit Unit :=
  { fdata := fun _ => Except.error 3
    readImage := fun _ _ => Except.ok ()
    load_RIRE_ground_truth := fun _ => Except.ok ((), ())
    absolute_orientation_m := fun _ _ => Except.ok ((), ())
    euler3DTransformOf := fun _ _ => Except.ok ()
    generate_random_pointset := fun _ _ => Except.ok ()
    transformPoints := fun _ _ => () }

/-- A data-loading environment where fetches and image reads succeed but
parsing the ground-truth correspondence file fails with error 5. -/
def failingGroundTruthEnv : DataLoadingEnv ℕ Unit Unit :=
  { fdata := fun _ => Except.ok (String.mk [])
    readImage := fun _ _ => Except.ok ()
    load_RIRE_ground_truth := fun _ => Except.error 5
    absolute_orientation_m := fun _ _ => Except.ok ((), ())
    euler3DTransformOf := fun _ _ => Except.ok ()
    generate_random_pointset := fun _ _ => Except.ok ()
    transformPoints := fun _ _ => () }

/-- A registration library whose `Execute` always fails with error 7
(non-convergence, say). -/
def failingRegistrationLibrary : RegistrationLibraryE ℕ Unit Unit :=
  { executeE := fun _ _ _ => Except.error 7
    optimizerStopConditionDescription := fun _ _ _ => String.mk [] }

/-- A resample environment whose `Execute` always fails with error 9. -/
def failingResampleEnv : ResampleEnv ℕ :=
  { resampleExecuteE := fun _ _ _ => Except.error 9 }

/-- Witness for `C5_notebook_failures_propagate` on the four concrete
failing environments. -/
theorem C5_notebook_failures_propagate_witness :
    failingFetchEnv.fdata DataFile.trainingCT = Except.error 3 ∧
    failingGroundTruthEnv.fdata DataFile.trainingCT = Except.ok (String.mk []) ∧
    failingGroundTruthEnv.readImage (String.mk []) PixelID.sitkFloat32 = Except.ok () ∧
    failingGroundTruthEnv.fdata DataFile.trainingMRT1 = Except.ok (String.mk []) ∧
    failingGroundTruthEnv.readImage (String.mk []) PixelID.sitkFloat32 = Except.ok () ∧
    failingGroundTruthEnv.fdata DataFile.ctT1Standard = Except.ok (String.mk []) ∧
    failingGroundTruthEnv.load_RIRE_ground_truth (String.mk []) = Except.error 5 ∧
    failingRegistrationLibrary.executeE (register_images_method () Interp.linear) () () =
      Except.error 7 ∧
    failingResampleEnv.resampleExecuteE (resamplingReference sampleMovingImage)
      Interp.bspline sampleMovingImage = Except.error 9 ∧
    (dataLoadingCellE failingFetchEnv = Except.error 3 ∧
      dataLoadingCellE failingGroundTruthEnv = Except.error 5 ∧
      register_imagesE failingRegistrationLibrary () () () Interp.linear =
        Except.error 7 ∧
      resamplingCellE failingResampleEnv sampleMovingImage = Except.error 9) :=
  ⟨rfl, rfl, rfl, rfl, rfl, rfl, rfl, rfl, rfl,
    C5_notebook_failures_propagate failingFetchEnv 3 rfl
      failingGroundTruthEnv (String.mk []) (String.mk []) (String.mk []) () () 5
      rfl rfl rfl rfl rfl rfl
      failingRegistrationLibrary () () () Interp.linear 7 rfl
      failingResampleEnv sampleMovingImage 9 rfl⟩

theorem marschner_lobb_value_bounds (alpha f_M z r : ℝ) (halpha : 0 ≤ alpha) :
    0 ≤ marschner_lobb_value alpha f_M z r ∧ marschner_lobb_value alpha f_M z r ≤ 1 := by
  unfold marschner_lobb_value
  set s := Real.sin (Real.pi / 2 * z) with hs_def
  set pr := Real.cos (2 * Real.pi * f_M * Real.cos (Real.pi / 2 * r)) with hpr_def
  have hs1 : s ≤ 1 := Real.sin_le_one _
  have hs2 : -1 ≤ s := Real.neg_one_le_sin _
  have hc1 : pr ≤ 1 := Real.cos_le_one _
  have hc2 : -1 ≤ pr := Real.neg_one_le_cos _
  have hd : (0 : ℝ) < 2 * (1 + alpha) := by linarith
  have hnum0 : 0 ≤ 1 - s + alpha * (1 + pr) := by
    have := mul_nonneg halpha (by linarith : (0 : ℝ) ≤ 1 + pr)
    linarith
  have hnum1 : 1 - s + alpha * (1 + pr) ≤ 2 * (1 + alpha) := by
    have := mul_le_mul_of_nonneg_left (by linarith : 1 + pr ≤ 2) halpha
    linarith
  constructor
  · exact div_nonneg hnum0 hd.le
  · rw [div_le_one hd]
    exact hnum1

/-- Claim C10: for every size at least 1, every nonnegative `alpha`, and
every `f_M`, each pixel value of the image returned by `marschner_lobb`
lies, in exact real arithmetic, in the closed interval `[0, 1]`. -/
theorem C10_marschner_lobb_pixel_bounded (size : ℕ) (alpha f_M : ℝ) (i j k : ℕ)
    (hsize : 1 ≤ size) (halpha : 0 ≤ alpha) :
    0 ≤ marschner_lobb_pixel size alpha f_M i j k ∧
    marschner_lobb_pixel size alpha f_M i j k ≤ 1 :=
  marschner_lobb_value_bounds alpha f_M (marschner_lobb_coord size k)
    (Real.sqrt (marschner_lobb_coord size i ^ 2 + marschner_lobb_coord size j ^ 2))
    halpha

/-- Witness for `C10_marschner_lobb_pixel_bounded` at the default
parameters `size=40`, `alpha=1/4`, `f_M=6`, pixel `(0, 0, 0)`. -/
theorem C10_marschner_lobb_pixel_bounded_witness :
    (1 : ℕ) ≤ 40 ∧ (0 : ℝ) ≤ 1 / 4 ∧
    (0 ≤ marschner_lobb_pixel 40 (1 / 4) 6 0 0 0 ∧
      marschner_lobb_pixel 40 (1 / 4) 6 0 0 0 ≤ 1) :=
  ⟨by norm_num, by norm_num,
    C10_marschner_lobb_pixel_bounded 40 (1 / 4) 6 0 0 0 (by norm_num) (by norm_num)⟩

end SitkNotebooks
